import Mathlib

/-!
# Verification of the ozelot serverbound packet dispatcher

Shallow embedding of `src/.serverbound-enum.generated.rs`: the
`ServerboundPacket` discriminated union, its phase-scoped `deserialize`
dispatch, and the introspection accessors `get_id` / `get_clientstate`,
together with the external collaborators (`ClientState`, `read_varint`,
the leaf payload codecs) modelled from the specification.

Byte sources are modelled as `List Nat` (each element one byte); reading
from a `&mut R` reader is modelled by functions that consume a prefix of
the list and return the remainder.
-/

namespace Ozelot

/-- Modelled from the spec: `ClientState` (the connection `PhaseState`) is
defined outside the generated file; per the spec it is a closed enumeration
with exactly four values `Handshake`, `Status`, `Login`, `Play`. -/
inductive ClientState
  | Handshake
  | Status
  | Login
  | Play
deriving DecidableEq, Repr

/-- Modelled from the spec: the leaf payload types (`Handshake`,
`StatusRequest`, ...) are external collaborators not present in `src/`;
each provides its own field (de)serialization. Their field layout is out
of scope, so each payload is modelled as an opaque byte body. -/
structure Handshake where
  data : List Nat
deriving DecidableEq, Repr

structure StatusRequest where
  data : List Nat
deriving DecidableEq, Repr

structure StatusPing where
  data : List Nat
deriving DecidableEq, Repr

structure LoginStart where
  data : List Nat
deriving DecidableEq, Repr

structure EncryptionResponse where
  data : List Nat
deriving DecidableEq, Repr

structure TeleportConfirm where
  data : List Nat
deriving DecidableEq, Repr

structure TabComplete where
  data : List Nat
deriving DecidableEq, Repr

structure ChatMessage where
  data : List Nat
deriving DecidableEq, Repr

structure ClientStatus where
  data : List Nat
deriving DecidableEq, Repr

structure ClientSettings where
  data : List Nat
deriving DecidableEq, Repr

structure ConfirmTransaction where
  data : List Nat
deriving DecidableEq, Repr

structure EnchantItem where
  data : List Nat
deriving DecidableEq, Repr

structure ClickWindow where
  data : List Nat
deriving DecidableEq, Repr

structure CloseWindow where
  data : List Nat
deriving DecidableEq, Repr

structure PluginMessage where
  data : List Nat
deriving DecidableEq, Repr

structure UseEntity where
  data : List Nat
deriving DecidableEq, Repr

structure KeepAlive where
  data : List Nat
deriving DecidableEq, Repr

structure Player where
  data : List Nat
deriving DecidableEq, Repr

structure PlayerPosition where
  data : List Nat
deriving DecidableEq, Repr

structure PlayerPositionAndLook where
  data : List Nat
deriving DecidableEq, Repr

structure PlayerLook where
  data : List Nat
deriving DecidableEq, Repr

structure VehicleMove where
  data : List Nat
deriving DecidableEq, Repr

structure SteerBoat where
  data : List Nat
deriving DecidableEq, Repr

structure CraftRecipeRequest where
  data : List Nat
deriving DecidableEq, Repr

structure PlayerAbilities where
  data : List Nat
deriving DecidableEq, Repr

structure PlayerDigging where
  data : List Nat
deriving DecidableEq, Repr

structure EntityAction where
  data : List Nat
deriving DecidableEq, Repr

structure SteerVehicle where
  data : List Nat
deriving DecidableEq, Repr

structure CraftingBookData where
  data : List Nat
deriving DecidableEq, Repr

structure ResourcePackStatus where
  data : List Nat
deriving DecidableEq, Repr

structure AdvancementTab where
  data : List Nat
deriving DecidableEq, Repr

structure HeldItemChange where
  data : List Nat
deriving DecidableEq, Repr

structure CreativeInventoryAction where
  data : List Nat
deriving DecidableEq, Repr

structure UpdateSign where
  data : List Nat
deriving DecidableEq, Repr

structure Animation where
  data : List Nat
deriving DecidableEq, Repr

structure Spectate where
  data : List Nat
deriving DecidableEq, Repr

structure PlayerBlockPlacement where
  data : List Nat
deriving DecidableEq, Repr

structure UseItem where
  data : List Nat
deriving DecidableEq, Repr

/-- The `ServerboundPacket` enum of the generated source (lines 7-47):
a discriminated union with 37 cases, each wrapping exactly one concrete
message payload type. -/
inductive ServerboundPacket
  | Handshake (x : Handshake)
  | StatusRequest (x : StatusRequest)
  | StatusPing (x : StatusPing)
  | LoginStart (x : LoginStart)
  | EncryptionResponse (x : EncryptionResponse)
  | TeleportConfirm (x : TeleportConfirm)
  | TabComplete (x : TabComplete)
  | ChatMessage (x : ChatMessage)
  | ClientStatus (x : ClientStatus)
  | ClientSettings (x : ClientSettings)
  | ConfirmTransaction (x : ConfirmTransaction)
  | EnchantItem (x : EnchantItem)
  | ClickWindow (x : ClickWindow)
  | CloseWindow (x : CloseWindow)
  | PluginMessage (x : PluginMessage)
  | UseEntity (x : UseEntity)
  | KeepAlive (x : KeepAlive)
  | Player (x : Player)
  | PlayerPosition (x : PlayerPosition)
  | PlayerPositionAndLook (x : PlayerPositionAndLook)
  | PlayerLook (x : PlayerLook)
  | VehicleMove (x : VehicleMove)
  | SteerBoat (x : SteerBoat)
  | CraftRecipeRequest (x : CraftRecipeRequest)
  | PlayerAbilities (x : PlayerAbilities)
  | PlayerDigging (x : PlayerDigging)
  | EntityAction (x : EntityAction)
  | SteerVehicle (x : SteerVehicle)
  | CraftingBookData (x : CraftingBookData)
  | ResourcePackStatus (x : ResourcePackStatus)
  | AdvancementTab (x : AdvancementTab)
  | HeldItemChange (x : HeldItemChange)
  | CreativeInventoryAction (x : CreativeInventoryAction)
  | UpdateSign (x : UpdateSign)
  | Animation (x : Animation)
  | Spectate (x : Spectate)
  | PlayerBlockPlacement (x : PlayerBlockPlacement)
  | UseItem (x : UseItem)
deriving DecidableEq, Repr

/-- Modelled from the spec: the failure of an external leaf decoder
(truncated body and the like); its precise shape is out of scope, only
that it is a cause the dispatcher must not swallow. -/
inductive LeafError
  | truncatedBody
deriving DecidableEq, Repr

/-- The error paths of `ServerboundPacket::deserialize`. The Rust source
uses one dynamic error type; the three structurally distinct paths are the
propagated `read_varint` failure (line 51, named `MalformedId` by the
spec), the `bail!` carrying the offending id and state (lines 57, 65, 73,
112, `UnknownOpcode` in the spec), and a propagated leaf-decoder failure
(the `?` on each `T::deserialize(r)` call, lines 55-110). -/
inductive DispatchError
  | malformedId
  | unknownOpcode (state : ClientState) (id : Nat)
  | leafErr (cause : LeafError)
deriving DecidableEq, Repr

/-- Modelled from the spec: `read_varint` is part of the primitive codec
collaborator ("variable-length integers — assumed given"); it reads one
variable-length non-negative integer, 7 bits per byte, low bits first,
with the high bit of each byte as continuation flag, failing on a
truncated source. Returns the value and the remaining bytes. -/
def read_varint : List Nat → Option (Nat × List Nat)
  | [] => none
  | b :: rest =>
    if b < 128 then some (b % 128, rest)
    else
      match read_varint rest with
      | some (v, rest2) => some (b % 128 + 128 * v, rest2)
      | none => none

/-- Fuel-indexed worker for `write_varint`: peels one 7-bit group per
step; `fuel ≥ n` always suffices since the value shrinks by a factor of
128 each step while the fuel drops by one. -/
def writeVarintAux : Nat → Nat → List Nat
  | 0, n => [n % 128]
  | fuel + 1, n =>
    if n < 128 then [n]
    else (n % 128 + 128) :: writeVarintAux fuel (n / 128)

/-- Modelled from the spec: the inverse primitive writer for
`read_varint`, writing a non-negative integer 7 bits per byte, low bits
first, high bit set on every byte but the last. -/
def write_varint (n : Nat) : List Nat :=
  writeVarintAux n n

/-- Modelled from the spec: each leaf message type provides
`serialize(&self) -> bytes`; the field layout is out of scope, so the
opaque byte body is written as a length-prefixed block (the primitive
codec's length-prefixed encoding), so that the matching decoder consumes
exactly its own fields. -/
def encodeBody (d : List Nat) : List Nat :=
  write_varint d.length ++ d

/-- Modelled from the spec: each leaf message type provides
`deserialize(source) -> Self`; inverse of `encodeBody`, consuming exactly
the bytes of one body and returning the remaining bytes, failing on a
truncated source. -/
def decodeBody (bytes : List Nat) : Except LeafError (List Nat × List Nat) :=
  match read_varint bytes with
  | none => .error .truncatedBody
  | some (n, rest) =>
    if n ≤ rest.length then .ok (rest.take n, rest.drop n)
    else .error .truncatedBody

/-- One dispatch arm `Ok(T::deserialize(r)?)` of the source (lines
55-110): run the leaf decoder on the remaining bytes, wrap a success in
the matching variant constructor, and propagate a leaf failure unchanged
as the cause. -/
def runLeaf (mk : List Nat → ServerboundPacket) (r : List Nat) :
    Except DispatchError ServerboundPacket :=
  match decodeBody r with
  | .ok (b, _) => .ok (mk b)
  | .error e => .error (.leafErr e)

/-- The phase-scoped opcode dispatch of `ServerboundPacket::deserialize`
(source lines 52-116): the `match state` over the four phases, each arm
matching the already-read `packet_id` against its registered ids in order
and falling through to the `bail!` arm carrying the state and the id. -/
def dispatch (state : ClientState) (packet_id : Nat) (r : List Nat) :
    Except DispatchError ServerboundPacket :=
  match state with
  | .Handshake =>
    if packet_id = 0 then runLeaf (fun b => .Handshake ⟨b⟩) r
    else .error (.unknownOpcode .Handshake packet_id)
  | .Status =>
    if packet_id = 0 then runLeaf (fun b => .StatusRequest ⟨b⟩) r
    else if packet_id = 1 then runLeaf (fun b => .StatusPing ⟨b⟩) r
    else .error (.unknownOpcode .Status packet_id)
  | .Login =>
    if packet_id = 0 then runLeaf (fun b => .LoginStart ⟨b⟩) r
    else if packet_id = 1 then runLeaf (fun b => .EncryptionResponse ⟨b⟩) r
    else .error (.unknownOpcode .Login packet_id)
  | .Play =>
    if packet_id = 0 then runLeaf (fun b => .TeleportConfirm ⟨b⟩) r
    else if packet_id = 1 then runLeaf (fun b => .TabComplete ⟨b⟩) r
    else if packet_id = 2 then runLeaf (fun b => .ChatMessage ⟨b⟩) r
    else if packet_id = 3 then runLeaf (fun b => .ClientStatus ⟨b⟩) r
    else if packet_id = 4 then runLeaf (fun b => .ClientSettings ⟨b⟩) r
    else if packet_id = 5 then runLeaf (fun b => .ConfirmTransaction ⟨b⟩) r
    else if packet_id = 6 then runLeaf (fun b => .EnchantItem ⟨b⟩) r
    else if packet_id = 7 then runLeaf (fun b => .ClickWindow ⟨b⟩) r
    else if packet_id = 8 then runLeaf (fun b => .CloseWindow ⟨b⟩) r
    else if packet_id = 9 then runLeaf (fun b => .PluginMessage ⟨b⟩) r
    else if packet_id = 10 then runLeaf (fun b => .UseEntity ⟨b⟩) r
    else if packet_id = 11 then runLeaf (fun b => .KeepAlive ⟨b⟩) r
    else if packet_id = 12 then runLeaf (fun b => .Player ⟨b⟩) r
    else if packet_id = 13 then runLeaf (fun b => .PlayerPosition ⟨b⟩) r
    else if packet_id = 14 then runLeaf (fun b => .PlayerPositionAndLook ⟨b⟩) r
    else if packet_id = 15 then runLeaf (fun b => .PlayerLook ⟨b⟩) r
    else if packet_id = 16 then runLeaf (fun b => .VehicleMove ⟨b⟩) r
    else if packet_id = 17 then runLeaf (fun b => .SteerBoat ⟨b⟩) r
    else if packet_id = 18 then runLeaf (fun b => .CraftRecipeRequest ⟨b⟩) r
    else if packet_id = 19 then runLeaf (fun b => .PlayerAbilities ⟨b⟩) r
    else if packet_id = 20 then runLeaf (fun b => .PlayerDigging ⟨b⟩) r
    else if packet_id = 21 then runLeaf (fun b => .EntityAction ⟨b⟩) r
    else if packet_id = 22 then runLeaf (fun b => .SteerVehicle ⟨b⟩) r
    else if packet_id = 23 then runLeaf (fun b => .CraftingBookData ⟨b⟩) r
    else if packet_id = 24 then runLeaf (fun b => .ResourcePackStatus ⟨b⟩) r
    else if packet_id = 25 then runLeaf (fun b => .AdvancementTab ⟨b⟩) r
    else if packet_id = 26 then runLeaf (fun b => .HeldItemChange ⟨b⟩) r
    else if packet_id = 27 then runLeaf (fun b => .CreativeInventoryAction ⟨b⟩) r
    else if packet_id = 28 then runLeaf (fun b => .UpdateSign ⟨b⟩) r
    else if packet_id = 29 then runLeaf (fun b => .Animation ⟨b⟩) r
    else if packet_id = 30 then runLeaf (fun b => .Spectate ⟨b⟩) r
    else if packet_id = 31 then runLeaf (fun b => .PlayerBlockPlacement ⟨b⟩) r
    else if packet_id = 32 then runLeaf (fun b => .UseItem ⟨b⟩) r
    else .error (.unknownOpcode .Play packet_id)

/-- `ServerboundPacket::deserialize` (source lines 50-117): read one
varint `packet_id` from the source — a read failure is propagated (the
spec's `MalformedId`) — then dispatch on the caller-supplied state. -/
def ServerboundPacket.deserialize (bytes : List Nat) (state : ClientState) :
    Except DispatchError ServerboundPacket :=
  match read_varint bytes with
  | none => .error .malformedId
  | some (packet_id, r) => dispatch state packet_id r

/-- `ServerboundPacket::get_clientstate` (source lines 161-203): the
owning phase of each variant. -/
def ServerboundPacket.get_clientstate : ServerboundPacket → ClientState
  | .Handshake _ => .Handshake
  | .StatusRequest _ => .Status
  | .StatusPing _ => .Status
  | .LoginStart _ => .Login
  | .EncryptionResponse _ => .Login
  | .TeleportConfirm _ => .Play
  | .TabComplete _ => .Play
  | .ChatMessage _ => .Play
  | .ClientStatus _ => .Play
  | .ClientSettings _ => .Play
  | .ConfirmTransaction _ => .Play
  | .EnchantItem _ => .Play
  | .ClickWindow _ => .Play
  | .CloseWindow _ => .Play
  | .PluginMessage _ => .Play
  | .UseEntity _ => .Play
  | .KeepAlive _ => .Play
  | .Player _ => .Play
  | .PlayerPosition _ => .Play
  | .PlayerPositionAndLook _ => .Play
  | .PlayerLook _ => .Play
  | .VehicleMove _ => .Play
  | .SteerBoat _ => .Play
  | .CraftRecipeRequest _ => .Play
  | .PlayerAbilities _ => .Play
  | .PlayerDigging _ => .Play
  | .EntityAction _ => .Play
  | .SteerVehicle _ => .Play
  | .CraftingBookData _ => .Play
  | .ResourcePackStatus _ => .Play
  | .AdvancementTab _ => .Play
  | .HeldItemChange _ => .Play
  | .CreativeInventoryAction _ => .Play
  | .UpdateSign _ => .Play
  | .Animation _ => .Play
  | .Spectate _ => .Play
  | .PlayerBlockPlacement _ => .Play
  | .UseItem _ => .Play

/-- `ServerboundPacket::get_id` (source lines 204-246): the wire id of
each variant within its owning phase. -/
def ServerboundPacket.get_id : ServerboundPacket → Nat
  | .Handshake _ => 0
  | .StatusRequest _ => 0
  | .StatusPing _ => 1
  | .LoginStart _ => 0
  | .EncryptionResponse _ => 1
  | .TeleportConfirm _ => 0
  | .TabComplete _ => 1
  | .ChatMessage _ => 2
  | .ClientStatus _ => 3
  | .ClientSettings _ => 4
  | .ConfirmTransaction _ => 5
  | .EnchantItem _ => 6
  | .ClickWindow _ => 7
  | .CloseWindow _ => 8
  | .PluginMessage _ => 9
  | .UseEntity _ => 10
  | .KeepAlive _ => 11
  | .Player _ => 12
  | .PlayerPosition _ => 13
  | .PlayerPositionAndLook _ => 14
  | .PlayerLook _ => 15
  | .VehicleMove _ => 16
  | .SteerBoat _ => 17
  | .CraftRecipeRequest _ => 18
  | .PlayerAbilities _ => 19
  | .PlayerDigging _ => 20
  | .EntityAction _ => 21
  | .SteerVehicle _ => 22
  | .CraftingBookData _ => 23
  | .ResourcePackStatus _ => 24
  | .AdvancementTab _ => 25
  | .HeldItemChange _ => 26
  | .CreativeInventoryAction _ => 27
  | .UpdateSign _ => 28
  | .Animation _ => 29
  | .Spectate _ => 30
  | .PlayerBlockPlacement _ => 31
  | .UseItem _ => 32

/-- The byte body wrapped by a variant (the `ref x` payload each case of
the source's `to_u8` match, lines 247-289, delegates to). -/
def ServerboundPacket.payloadBytes : ServerboundPacket → List Nat
  | .Handshake x => x.data
  | .StatusRequest x => x.data
  | .StatusPing x => x.data
  | .LoginStart x => x.data
  | .EncryptionResponse x => x.data
  | .TeleportConfirm x => x.data
  | .TabComplete x => x.data
  | .ChatMessage x => x.data
  | .ClientStatus x => x.data
  | .ClientSettings x => x.data
  | .ConfirmTransaction x => x.data
  | .EnchantItem x => x.data
  | .ClickWindow x => x.data
  | .CloseWindow x => x.data
  | .PluginMessage x => x.data
  | .UseEntity x => x.data
  | .KeepAlive x => x.data
  | .Player x => x.data
  | .PlayerPosition x => x.data
  | .PlayerPositionAndLook x => x.data
  | .PlayerLook x => x.data
  | .VehicleMove x => x.data
  | .SteerBoat x => x.data
  | .CraftRecipeRequest x => x.data
  | .PlayerAbilities x => x.data
  | .PlayerDigging x => x.data
  | .EntityAction x => x.data
  | .SteerVehicle x => x.data
  | .CraftingBookData x => x.data
  | .ResourcePackStatus x => x.data
  | .AdvancementTab x => x.data
  | .HeldItemChange x => x.data
  | .CreativeInventoryAction x => x.data
  | .UpdateSign x => x.data
  | .Animation x => x.data
  | .Spectate x => x.data
  | .PlayerBlockPlacement x => x.data
  | .UseItem x => x.data

/-- `ServerboundPacket::to_u8` (source lines 247-289) delegates the whole
encoding to the matched leaf's `to_u8`. Modelled from the spec: each leaf
encoder "writes the id as a variable-length integer, then delegates to
the payload's own encoder, concatenating the results" (spec section 4.2),
the id being the one the reverse mapping (`get_id`) resolves. -/
def ServerboundPacket.to_u8 (v : ServerboundPacket) : List Nat :=
  write_varint v.get_id ++ encodeBody v.payloadBytes

/-- The number of match arms (registered ids) of each phase's arm of the
`deserialize` dispatch: ids `0..n-1` are matched, everything else falls
to the `bail!` arm. -/
def nRegistered : ClientState → Nat
  | .Handshake => 1
  | .Status => 2
  | .Login => 2
  | .Play => 33

deriving instance DecidableEq for Except

/-- Whether opcode `k` dispatches to a message decoder in phase `p`:
observed behaviourally, `k` hits a leaf arm exactly when dispatching it
(over an empty remainder) does not fall to the unknown-opcode arm. -/
def dispatchHit (p : ClientState) (k : Nat) : Bool :=
  if dispatch p k [] = .error (.unknownOpcode p k) then false else true

/-- The position of a variant's case within the 37-case union (source
lines 8-45, in declaration order). -/
def ServerboundPacket.caseIndex : ServerboundPacket → Nat
  | .Handshake _ => 0
  | .StatusRequest _ => 1
  | .StatusPing _ => 2
  | .LoginStart _ => 3
  | .EncryptionResponse _ => 4
  | .TeleportConfirm _ => 5
  | .TabComplete _ => 6
  | .ChatMessage _ => 7
  | .ClientStatus _ => 8
  | .ClientSettings _ => 9
  | .ConfirmTransaction _ => 10
  | .EnchantItem _ => 11
  | .ClickWindow _ => 12
  | .CloseWindow _ => 13
  | .PluginMessage _ => 14
  | .UseEntity _ => 15
  | .KeepAlive _ => 16
  | .Player _ => 17
  | .PlayerPosition _ => 18
  | .PlayerPositionAndLook _ => 19
  | .PlayerLook _ => 20
  | .VehicleMove _ => 21
  | .SteerBoat _ => 22
  | .CraftRecipeRequest _ => 23
  | .PlayerAbilities _ => 24
  | .PlayerDigging _ => 25
  | .EntityAction _ => 26
  | .SteerVehicle _ => 27
  | .CraftingBookData _ => 28
  | .ResourcePackStatus _ => 29
  | .AdvancementTab _ => 30
  | .HeldItemChange _ => 31
  | .CreativeInventoryAction _ => 32
  | .UpdateSign _ => 33
  | .Animation _ => 34
  | .Spectate _ => 35
  | .PlayerBlockPlacement _ => 36
  | .UseItem _ => 37

/-- Build the variant at case position `i` (declaration order of source
lines 8-45) around a payload body; out-of-range positions default to the
first case, which the closed-union theorem excludes by bounding `i`. -/
def mkPacket (i : Nat) (d : List Nat) : ServerboundPacket :=
  if i = 0 then .Handshake ⟨d⟩
  else if i = 1 then .StatusRequest ⟨d⟩
  else if i = 2 then .StatusPing ⟨d⟩
  else if i = 3 then .LoginStart ⟨d⟩
  else if i = 4 then .EncryptionResponse ⟨d⟩
  else if i = 5 then .TeleportConfirm ⟨d⟩
  else if i = 6 then .TabComplete ⟨d⟩
  else if i = 7 then .ChatMessage ⟨d⟩
  else if i = 8 then .ClientStatus ⟨d⟩
  else if i = 9 then .ClientSettings ⟨d⟩
  else if i = 10 then .ConfirmTransaction ⟨d⟩
  else if i = 11 then .EnchantItem ⟨d⟩
  else if i = 12 then .ClickWindow ⟨d⟩
  else if i = 13 then .CloseWindow ⟨d⟩
  else if i = 14 then .PluginMessage ⟨d⟩
  else if i = 15 then .UseEntity ⟨d⟩
  else if i = 16 then .KeepAlive ⟨d⟩
  else if i = 17 then .Player ⟨d⟩
  else if i = 18 then .PlayerPosition ⟨d⟩
  else if i = 19 then .PlayerPositionAndLook ⟨d⟩
  else if i = 20 then .PlayerLook ⟨d⟩
  else if i = 21 then .VehicleMove ⟨d⟩
  else if i = 22 then .SteerBoat ⟨d⟩
  else if i = 23 then .CraftRecipeRequest ⟨d⟩
  else if i = 24 then .PlayerAbilities ⟨d⟩
  else if i = 25 then .PlayerDigging ⟨d⟩
  else if i = 26 then .EntityAction ⟨d⟩
  else if i = 27 then .SteerVehicle ⟨d⟩
  else if i = 28 then .CraftingBookData ⟨d⟩
  else if i = 29 then .ResourcePackStatus ⟨d⟩
  else if i = 30 then .AdvancementTab ⟨d⟩
  else if i = 31 then .HeldItemChange ⟨d⟩
  else if i = 32 then .CreativeInventoryAction ⟨d⟩
  else if i = 33 then .UpdateSign ⟨d⟩
  else if i = 34 then .Animation ⟨d⟩
  else if i = 35 then .Spectate ⟨d⟩
  else if i = 36 then .PlayerBlockPlacement ⟨d⟩
  else if i = 37 then .UseItem ⟨d⟩
  else .Handshake ⟨d⟩

/-! ## Lemmas about the primitive codec and the dispatch arms -/

/-- Reading back a varint written with sufficient fuel recovers the value
and leaves the trailing bytes untouched. -/
theorem read_varint_writeAux (fuel : Nat) :
    ∀ n, n ≤ fuel → ∀ rest : List Nat,
      read_varint (writeVarintAux fuel n ++ rest) = some (n, rest) := by
  induction fuel with
  | zero =>
    intro n hn rest
    have hz : n = 0 := by omega
    subst hz
    simp [writeVarintAux, read_varint]
  | succ fuel ih =>
    intro n hn rest
    by_cases h : n < 128
    · simp [writeVarintAux, h, read_varint, Nat.mod_eq_of_lt h]
    · have hdiv : n / 128 < n := Nat.div_lt_self (by omega) (by omega)
      have hb : ¬ (n % 128 + 128 < 128) := by omega
      rw [writeVarintAux, if_neg h]
      rw [List.cons_append, read_varint, if_neg hb,
        ih (n / 128) (by omega) rest]
      have hm : (n % 128 + 128) % 128 = n % 128 := by omega
      rw [hm]
      show some (n % 128 + 128 * (n / 128), rest) = some (n, rest)
      rw [Nat.mod_add_div n 128]

/-- Varint round-trip: reading back `write_varint n` recovers `n` and the
trailing bytes. -/
theorem read_varint_write (n : Nat) (rest : List Nat) :
    read_varint (write_varint n ++ rest) = some (n, rest) :=
  read_varint_writeAux n n le_rfl rest

/-- `deserialize` on a source starting with a well-formed varint `k`
reduces to the phase dispatch on `k`. -/
theorem deserialize_write (p : ClientState) (k : Nat) (rest : List Nat) :
    ServerboundPacket.deserialize (write_varint k ++ rest) p
      = dispatch p k rest := by
  unfold ServerboundPacket.deserialize
  rw [read_varint_write]

/-- Leaf codec round-trip: decoding an encoded body consumes exactly the
body and returns the trailing bytes. -/
theorem decodeBody_encode (d extra : List Nat) :
    decodeBody (encodeBody d ++ extra) = .ok (d, extra) := by
  unfold decodeBody encodeBody
  rw [List.append_assoc, read_varint_write]
  simp [List.take_left, List.drop_left]

/-- A dispatch arm applied to an encoded body (and arbitrary trailing
bytes) succeeds with the wrapped payload. -/
theorem runLeaf_encode (mk : List Nat → ServerboundPacket) (d extra : List Nat) :
    runLeaf mk (encodeBody d ++ extra) = .ok (mk d) := by
  unfold runLeaf
  rw [decodeBody_encode]

/-- `runLeaf_encode` with no trailing bytes. -/
theorem runLeaf_encode_nil (mk : List Nat → ServerboundPacket) (d : List Nat) :
    runLeaf mk (encodeBody d) = .ok (mk d) := by
  have h := runLeaf_encode mk d []
  rwa [List.append_nil] at h

/-- A successful dispatch arm always returns a value built by that arm's
own constructor. -/
theorem runLeaf_ok {mk : List Nat → ServerboundPacket} {r : List Nat}
    {v : ServerboundPacket} (h : runLeaf mk r = .ok v) : ∃ b, v = mk b := by
  unfold runLeaf at h
  cases hd : decodeBody r with
  | ok p =>
    obtain ⟨b, l⟩ := p
    rw [hd] at h
    injection h with h2
    exact ⟨b, h2.symm⟩
  | error e =>
    rw [hd] at h
    cases h

/-- Every opcode at or past the registered range of a phase falls through
every arm to the `bail!` case carrying that phase and opcode. -/
theorem dispatch_high {p : ClientState} {k : Nat} (rest : List Nat)
    (h : nRegistered p ≤ k) :
    dispatch p k rest = .error (.unknownOpcode p k) := by
  cases p <;> simp only [nRegistered] at h <;> unfold dispatch <;>
    (repeat rw [if_neg (by omega)])

/-- Behavioural characterization of the registered id set: opcode `k`
hits a leaf arm in phase `p` exactly when `k < nRegistered p`. -/
theorem dispatchHit_iff (p : ClientState) (k : Nat) :
    dispatchHit p k = true ↔ k < nRegistered p := by
  constructor
  · intro h
    by_contra hk
    rw [dispatchHit, if_pos (dispatch_high [] (by omega))] at h
    exact Bool.noConfusion h
  · intro hk
    cases p <;> simp only [nRegistered] at hk <;> interval_cases k <;> decide

/-- A successful dispatch returns a variant whose `get_id` is the
dispatched opcode and whose `get_clientstate` is the dispatching phase. -/
theorem dispatch_ok {p : ClientState} {k : Nat} {r : List Nat}
    {v : ServerboundPacket} (h : dispatch p k r = .ok v) :
    v.get_id = k ∧ v.get_clientstate = p := by
  by_cases hk : k < nRegistered p
  · cases p <;> simp only [nRegistered] at hk <;> interval_cases k <;>
      (simp only [dispatch, reduceIte] at h
       obtain ⟨b, rfl⟩ := runLeaf_ok h
       exact ⟨rfl, rfl⟩)
  · rw [dispatch_high r (by omega)] at h
    cases h

/-! ## Claim theorems -/

/-- C1: round-trip law — for every constructible `ServerboundPacket`
value `v`, deserializing the bytes produced by `to_u8 v` in the phase
`get_clientstate v` succeeds and returns `v`. -/
theorem round_trip_decode_encode (v : ServerboundPacket) :
    ServerboundPacket.deserialize v.to_u8 v.get_clientstate = .ok v := by
  cases v <;>
    simp [ServerboundPacket.to_u8, ServerboundPacket.get_id,
      ServerboundPacket.get_clientstate, ServerboundPacket.payloadBytes,
      deserialize_write, dispatch, runLeaf_encode_nil]

/-- C2: closed world — for every phase `p` and every opcode `k` outside
the registered id set of `p`, deserializing a source beginning with the
varint encoding of `k` fails with `unknownOpcode p k`; no unmapped id is
silently ignored or routed to a default case. -/
theorem closed_world_unknown_opcode (p : ClientState) (k : Nat)
    (rest : List Nat) (h : dispatchHit p k = false) :
    ServerboundPacket.deserialize (write_varint k ++ rest) p
      = .error (.unknownOpcode p k) := by
  have hk : ¬ k < nRegistered p := fun hlt => by
    rw [(dispatchHit_iff p k).2 hlt] at h
    exact Bool.noConfusion h
  rw [deserialize_write]
  exact dispatch_high rest (by omega)

/-- Witness for C2 at phase `Status`, opcode `2` (registered ids of
`Status` are only `0` and `1`). -/
theorem closed_world_witness :
    ServerboundPacket.deserialize (write_varint 2 ++ [0]) .Status
      = .error (.unknownOpcode .Status 2) :=
  closed_world_unknown_opcode .Status 2 [0] (by decide)

/-- C3: id density — for every phase `p`, the opcodes that dispatch to a
message decoder are exactly `{0, ..., nRegistered p - 1}`, and the
per-phase counts are `1`, `2`, `2`, `33` for `Handshake`, `Status`,
`Login`, `Play` respectively. -/
theorem id_density :
    (∀ p k, dispatchHit p k = true ↔ k < nRegistered p) ∧
    nRegistered .Handshake = 1 ∧ nRegistered .Status = 2 ∧
    nRegistered .Login = 2 ∧ nRegistered .Play = 33 :=
  ⟨dispatchHit_iff, rfl, rfl, rfl, rfl⟩

/-- C4: introspection consistency — whenever deserializing opcode `k` in
phase `p` produces a variant `v`, `get_id v = k`: the id-to-variant
mapping of `deserialize` and the variant-to-id mapping of `get_id` are
mutual inverses within each phase. -/
theorem id_variant_mutual_inverse (p : ClientState) (k : Nat)
    (rest : List Nat) (v : ServerboundPacket)
    (h : ServerboundPacket.deserialize (write_varint k ++ rest) p = .ok v) :
    v.get_id = k := by
  rw [deserialize_write] at h
  exact (dispatch_ok h).1

/-- Witness for C4: opcode `1` in `Status` decodes to `StatusPing`, whose
`get_id` is again `1`. -/
theorem id_variant_mutual_inverse_witness :
    (ServerboundPacket.StatusPing ⟨[]⟩).get_id = 1 :=
  id_variant_mutual_inverse .Status 1 (encodeBody []) (.StatusPing ⟨[]⟩)
    (by decide)

/-- C5: in phase `Play`, opcode `32` (with a well-formed payload) decodes
to the `UseItem` case; opcode `33` fails with `unknownOpcode Play 33`;
and `32` is the highest id registered in that phase. -/
theorem play_opcode_32_is_use_item :
    (∀ d extra, ServerboundPacket.deserialize
        (write_varint 32 ++ (encodeBody d ++ extra)) .Play
        = .ok (.UseItem ⟨d⟩)) ∧
    (∀ rest, ServerboundPacket.deserialize (write_varint 33 ++ rest) .Play
        = .error (.unknownOpcode .Play 33)) ∧
    (∀ k, dispatchHit .Play k = true → k ≤ 32) := by
  refine ⟨?_, ?_, ?_⟩
  · intro d extra
    rw [deserialize_write]
    simp [dispatch, runLeaf_encode]
  · intro rest
    rw [deserialize_write]
    exact dispatch_high rest (by simp [nRegistered])
  · intro k hk
    have h := (dispatchHit_iff .Play k).1 hk
    simp only [nRegistered] at h
    omega

/-- Witness for C5: opcode `32` does hit a leaf arm in `Play`, and the
bound instantiates there. -/
theorem play_opcode_witness : (32 : Nat) ≤ 32 :=
  play_opcode_32_is_use_item.2.2 32 (by decide)

/-- C6: in phase `Login`, opcode `1` followed by a correctly encoded
payload decodes to the `EncryptionResponse` case, and re-encoding that
value yields the varint encoding of `1` followed by exactly the original
payload bytes. -/
theorem login_opcode_1_encryption_response (d : List Nat) :
    ServerboundPacket.deserialize (write_varint 1 ++ encodeBody d) .Login
        = .ok (.EncryptionResponse ⟨d⟩) ∧
    (ServerboundPacket.EncryptionResponse ⟨d⟩).to_u8
        = write_varint 1 ++ encodeBody d := by
  constructor
  · rw [deserialize_write]
    simp [dispatch, runLeaf_encode_nil]
  · rfl

/-- C7: a byte source whose opcode position holds a truncated or invalid
varint makes `deserialize` return `malformedId` in every phase — a total,
typed error distinct from `unknownOpcode`, never a panic or an
indeterminate value. -/
theorem malformed_id_on_bad_varint :
    (∀ (p : ClientState) (bytes : List Nat), read_varint bytes = none →
      ServerboundPacket.deserialize bytes p = .error .malformedId) ∧
    (∀ (p : ClientState) (k : Nat),
      (DispatchError.malformedId : DispatchError) ≠ .unknownOpcode p k) := by
  constructor
  · intro p bytes h
    unfold ServerboundPacket.deserialize
    rw [h]
  · intro p k hcontra
    cases hcontra

/-- Witness for C7: the single byte `0x80` is a truncated varint
(continuation bit set, no following byte). -/
theorem malformed_id_witness :
    ServerboundPacket.deserialize [128] .Play = .error .malformedId :=
  malformed_id_on_bad_varint.1 .Play [128] (by decide)

/-- C8 counterexample: the error returned when the leaf decoder fails
records neither the message type nor the phase — decoding the same
failing body (`opcode 0`, empty remainder) in phase `Handshake` (message
type `Handshake`) and in phase `Login` (message type `LoginStart`)
returns the very same error value, which is only the propagated leaf
cause. -/
theorem payload_error_context_counterexample :
    ServerboundPacket.deserialize [0] .Handshake
        = .error (.leafErr .truncatedBody) ∧
    ServerboundPacket.deserialize [0] .Login
        = .error (.leafErr .truncatedBody) ∧
    ServerboundPacket.deserialize [0] .Handshake
        = ServerboundPacket.deserialize [0] .Login := by
  refine ⟨by decide, by decide, by decide⟩

/-- C8 amended: when the opcode matches a message type but the delegated
leaf decoder fails, `deserialize` surfaces the failure to the caller with
the underlying cause preserved unchanged (not swallowed), but attaches no
message-type or phase context to it. -/
theorem payload_error_propagates_cause (p : ClientState) (k : Nat)
    (rest : List Nat) (e : LeafError) (hk : dispatchHit p k = true)
    (he : decodeBody rest = .error e) :
    ServerboundPacket.deserialize (write_varint k ++ rest) p
      = .error (.leafErr e) := by
  rw [deserialize_write]
  have hlt := (dispatchHit_iff p k).1 hk
  cases p <;> simp only [nRegistered] at hlt <;> interval_cases k <;>
    simp [dispatch, runLeaf, he]

/-- Witness for C8 amended: opcode `0` in `Handshake` with an empty
remainder; the leaf decoder fails with a truncated body and that cause is
surfaced unchanged. -/
theorem payload_error_witness :
    ServerboundPacket.deserialize (write_varint 0 ++ []) .Handshake
      = .error (.leafErr .truncatedBody) :=
  payload_error_propagates_cause .Handshake 0 [] .truncatedBody
    (by decide) (by decide)

/-- C9 counterexample: the union does not have exactly 37 cases — here
are 38 values, all wrapping the same payload body, that are pairwise
distinct, which is impossible for a discriminated union of 37 cases each
wrapping exactly one payload. -/
theorem thirty_eight_distinct_cases :
    ((List.range 38).map (fun i => mkPacket i [])).Nodup := by
  decide

/-- C9 amended: `ServerboundPacket` is a closed discriminated union with
exactly 38 cases, each wrapping exactly one message payload body: every
value is `mkPacket i d` for exactly one case position `i < 38` and
payload `d`, and distinct positions below 38 give distinct cases. -/
theorem closed_union_38_cases :
    (∀ v : ServerboundPacket,
      v.caseIndex < 38 ∧ mkPacket v.caseIndex v.payloadBytes = v) ∧
    (∀ i d, i < 38 →
      (mkPacket i d).caseIndex = i ∧ (mkPacket i d).payloadBytes = d) := by
  constructor
  · intro v
    cases v <;> exact ⟨by simp [ServerboundPacket.caseIndex], rfl⟩
  · intro i d hi
    interval_cases i <;> exact ⟨rfl, rfl⟩

/-- Witness for C9 amended at the last case position. -/
theorem closed_union_witness :
    (mkPacket 37 [5]).caseIndex = 37 ∧ (mkPacket 37 [5]).payloadBytes = [5] :=
  closed_union_38_cases.2 37 [5] (by decide)

/-- C10: phase consistency of decode — whenever `deserialize bytes p`
succeeds with a variant `v`, the owning phase `get_clientstate v` equals
the caller-supplied phase `p`, even though that phase is trusted and
never cross-checked. -/
theorem decode_phase_consistent (p : ClientState) (bytes : List Nat)
    (v : ServerboundPacket)
    (h : ServerboundPacket.deserialize bytes p = .ok v) :
    v.get_clientstate = p := by
  unfold ServerboundPacket.deserialize at h
  cases hr : read_varint bytes with
  | none =>
    rw [hr] at h
    cases h
  | some kr =>
    obtain ⟨k, r⟩ := kr
    rw [hr] at h
    exact (dispatch_ok h).2

/-- Witness for C10: a full `Handshake` frame decoded in phase
`Handshake` yields a variant owned by `Handshake`. -/
theorem decode_phase_witness :
    (ServerboundPacket.Handshake ⟨[]⟩).get_clientstate = .Handshake :=
  decode_phase_consistent .Handshake [0, 0] (.Handshake ⟨[]⟩) (by decide)

end Ozelot
